import Mathlib

/-!
Verification of the menuFrontend discount ledger and mini-game loop.

The definitions below are a shallow embedding of the TypeScript source:

* the Discount Ledger (src/unnamed/part_005, lines 155-256): storage cell,
  record parsing, `calculateDiscount`, `updateDiscount`, and the word-game
  read path `calculateGuessDiscount` (lines 1228-1242);
* the Cabinet view read logic (src/src/pages/Cabinet.tsx, lines 5-50);
* the jumper game loop (src/unnamed/part_005, `resetState` and `gameLoop`).

JavaScript numbers are modelled as rationals, timestamps as rationals, and
`Date` arithmetic as addition on a rational time line (one unit per day in
the ledger model, one unit per millisecond in the Cabinet model, matching
each consumer).  Every call to `Math.random()` is replaced by one field of
an explicit oracle argument, so all theorems hold for every outcome of the
random draws.
-/

namespace MenuFrontend

/-! ## Discount Ledger (src/unnamed/part_005, lines 19-30 and 155-256) -/

/-- Model of `DiscountConfig` (part_005, lines 20-24). -/
structure DiscountConfig where
  pointsPerPercent : ℚ
  maxDiscount : ℤ
  discountValidityDays : ℚ
deriving DecidableEq

/-- Model of `DISCOUNT_CONFIG` (part_005, lines 26-30): 100 points per percent,
cap 100, 7-day validity. -/
def DISCOUNT_CONFIG : DiscountConfig :=
  { pointsPerPercent := 100, maxDiscount := 100, discountValidityDays := 7 }

/-- Model of `DiscountData` (part_005, lines 13-18).  `pointsEarned` is kept rational
because the merge path of `updateDiscount` adds the raw `newPoints` argument
to it without flooring. -/
structure DiscountData where
  pointsEarned : ℚ
  discountPercent : ℤ
  totalDiscount : ℤ
  expirationDate : ℚ
deriving DecidableEq

/-- The `localStorage` cell under the key `user_discount`: absent, present
but unparseable, or a parsed record. -/
inductive StoredCell where
  | missing
  | corrupt
  | valid (d : DiscountData)
deriving DecidableEq

/-- Model of `loadDiscount` (part_005, lines 160-175): returns `null` when the key is
absent or parsing throws, otherwise the parsed record unchanged.  No expiry
check happens here. -/
def loadDiscount : StoredCell → Option DiscountData
  | .missing => none
  | .corrupt => none
  | .valid d => some d

/-- Model of `saveDiscount` (part_005, lines 178-184). -/
def saveDiscount (d : DiscountData) : StoredCell :=
  .valid d

/-- Model of `calculateDiscount` (part_005, lines 186-204):
`pointsEarned = Math.floor(score)`;
`discountPercent = Math.min(Math.floor(pointsEarned / pointsPerPercent), maxDiscount)`;
`totalDiscount = discountPercent`; expiration is `now + validityDays`.
(JS division by zero would give `Infinity`; every config considered here has
a positive `pointsPerPercent`, where the models agree.) -/
def calculateDiscount (score : ℚ) (config : DiscountConfig) (now : ℚ) : DiscountData :=
  let pointsEarned : ℤ := ⌊score⌋
  let discountPercent : ℤ :=
    min ⌊(pointsEarned : ℚ) / config.pointsPerPercent⌋ config.maxDiscount
  { pointsEarned := (pointsEarned : ℚ)
    discountPercent := discountPercent
    totalDiscount := discountPercent
    expirationDate := now + config.discountValidityDays }

/-- The two `updateDiscount` sources (part_005, line 206): the jumper game
run score and the word-game win. -/
inductive Source where
  | jump
  | guess
deriving DecidableEq

/-- Model of `updateDiscount` (part_005, lines 206-256), as a load-modify-store on the
storage cell.  Branch order as in the source: expired existing record starts
fresh; no record starts fresh; a record at or above the cap is returned
without saving; otherwise merge (`jump` accumulates points, `guess` adds a
flat 5) and extend the expiration. -/
def updateDiscount (store : StoredCell) (newPoints : ℚ) (source : Source) (now : ℚ) :
    DiscountData × StoredCell :=
  match loadDiscount store with
  | some existing =>
    if existing.expirationDate < now then
      let fresh := calculateDiscount newPoints DISCOUNT_CONFIG now
      (fresh, saveDiscount fresh)
    else if DISCOUNT_CONFIG.maxDiscount ≤ existing.totalDiscount then
      (existing, store)
    else
      let totalPoints : ℚ :=
        match source with
        | .jump => existing.pointsEarned + newPoints
        | .guess => existing.pointsEarned
      let totalDiscount : ℤ :=
        match source with
        | .jump => min ⌊totalPoints / DISCOUNT_CONFIG.pointsPerPercent⌋
            DISCOUNT_CONFIG.maxDiscount
        | .guess => min (existing.totalDiscount + 5) DISCOUNT_CONFIG.maxDiscount
      let updated : DiscountData :=
        { pointsEarned := totalPoints
          discountPercent := totalDiscount
          totalDiscount := totalDiscount
          expirationDate := now + DISCOUNT_CONFIG.discountValidityDays }
      (updated, saveDiscount updated)
  | none =>
    let fresh := calculateDiscount newPoints DISCOUNT_CONFIG now
    (fresh, saveDiscount fresh)

/-- Model of `calculateGuessDiscount` (part_005, lines 1228-1242): a non-first win of
the day returns the stored record unchanged when one parses (no expiry
check), an all-zero record otherwise; the first win of the day goes through
`updateDiscount(0, guess)`. -/
def calculateGuessDiscount (store : StoredCell) (isFirst : Bool) (now : ℚ) :
    DiscountData × StoredCell :=
  if isFirst = false then
    match loadDiscount store with
    | some existing => (existing, store)
    | none =>
      ({ pointsEarned := 0
         discountPercent := 0
         totalDiscount := 0
         expirationDate := now }, store)
  else
    updateDiscount store 0 .guess now

/-! ## Cabinet view (src/src/pages/Cabinet.tsx, lines 5-50)

Timestamps here are milliseconds, matching `Date.getTime()`. -/

/-- Milliseconds per day, the divisor in Cabinet.tsx line 12. -/
def msPerDay : ℚ := 86400000

/-- Model of `daysLeft` (Cabinet.tsx, lines 8-15): zero when no expiration is set,
otherwise `Math.max(0, Math.ceil((expiresAt - now) / msPerDay))`. -/
def cabinetDaysLeft (expiresAt : Option ℚ) (nowMs : ℚ) : ℤ :=
  match expiresAt with
  | none => 0
  | some t => max 0 ⌈(t - nowMs) / msPerDay⌉

/-- Model of `discountExpired` (Cabinet.tsx, line 17): `!expiresAt || daysLeft <= 0`.
When this is `true` the view renders "No discount available". -/
def cabinetDiscountExpired (expiresAt : Option ℚ) (nowMs : ℚ) : Bool :=
  match expiresAt with
  | none => true
  | some _ => decide (cabinetDaysLeft expiresAt nowMs ≤ 0)

/-! ## Jumper game model (src/unnamed/part_005, `resetState` and `gameLoop`)

Coordinates are screen coordinates (y grows downward).  All state that the
loop mutates and that the claims mention is modelled; particles and canvas
drawing are purely cosmetic and omitted.  Each `Math.random()` call site is
replaced by a field of an oracle structure, so every theorem below holds
for every outcome of the draws. -/

/-- Player state (part_005, lines 33-51 and `resetState`). -/
structure Player where
  x : ℚ
  y : ℚ
  vx : ℚ
  vy : ℚ
  width : ℚ
  height : ℚ
  isMovingLeft : Bool
  isMovingRight : Bool
  isDead : Bool
  hasJetpack : Bool
  jetpackFuel : ℚ
  hasShield : Bool
  shieldTimer : ℚ
  rocketBoost : ℚ
  isInvincible : Bool
  invincibleTimer : ℚ
deriving DecidableEq

/-- Platform state (part_005, lines 53-64). -/
structure Platform where
  x : ℚ
  y : ℚ
  width : ℚ
  height : ℚ
  vx : ℚ
  type : ℕ
  isBreakable : Bool
  isDisappearing : Bool
  disappearTimer : ℚ
  hasPowerUp : Bool
deriving DecidableEq

/-- Power-up kinds (part_005, line 69). -/
inductive PowerUpType where
  | jetpack
  | spring
  | rocket
  | shield
deriving DecidableEq

/-- Power-up entity (part_005, lines 66-75). -/
structure PowerUp where
  x : ℚ
  y : ℚ
  type : PowerUpType
  width : ℚ
  height : ℚ
  activeTime : ℚ
  isActive : Bool
deriving DecidableEq

/-- Oracle for the random draws made while processing one platform in one
frame: the power-up spawn chance and type on landing, and the recycled
new platform position, type, flags, drift and width. -/
structure PlatRand where
  spawnPowerUp : Bool
  spawnType : PowerUpType
  recycleX : ℚ
  recycleY : ℚ
  recycleType : ℕ
  recycleBreakable : Bool
  recycleDisappearing : Bool
  recycleMoving : Bool
  recycleVxPos : Bool
  recycleWidth : ℚ
  recycleHasPowerUp : Bool

/-- Result of the per-platform collision block (part_005, lines 616-662). -/
structure HitResult where
  player : Player
  platform : Platform
  score : ℚ
  spawned : List PowerUp
deriving DecidableEq

/-- The landing test (part_005, lines 617-623): falling, horizontal AABB
overlap, and the bottom edge strictly below the platform top and strictly
above `platform.y + platform.height + 10`. -/
def platformHit (p : Player) (pl : Platform) : Bool :=
  decide (0 < p.vy ∧ p.x < pl.x + pl.width ∧ pl.x < p.x + p.width ∧
    pl.y < p.y + p.height ∧ p.y + p.height < pl.y + pl.height + 10)

/-- The power-up pushed just above a platform on landing
(part_005, lines 648-656). -/
def mkSpawn (t : PowerUpType) (pl : Platform) : PowerUp :=
  { x := pl.x + pl.width / 2 - 15
    y := pl.y - 30
    type := t
    width := 30
    height := 30
    activeTime := if t = .jetpack then 5 else if t = .shield then 10 else 0
    isActive := true }

/-- The collision block of the platform loop (part_005, lines 616-662).
On a hit: bouncy platforms (type 3) give `vy = -13` and 5 bonus points, all
others `vy = -10`; breakable type-4 platforms teleport to `y = -1000`;
disappearing type-5 platforms restart their collapse timer; every landing
then adds the flat 3-point bonus and may spawn a power-up, clearing
`hasPowerUp`.  Without a hit nothing changes. -/
def platformCollision (r : PlatRand) (p : Player) (sc : ℚ) (pl : Platform) : HitResult :=
  if platformHit p pl = true then
    let p1 := { p with vy := if pl.type = 3 then -13 else -10 }
    let pl1 :=
      if pl.type = 4 ∧ pl.isBreakable = true then { pl with y := -1000 }
      else if pl.type = 5 ∧ pl.isDisappearing = true then { pl with disappearTimer := 0.1 }
      else pl
    let sc1 := (if pl.type = 3 then sc + 5 else sc) + 3
    if pl1.hasPowerUp = true ∧ r.spawnPowerUp = true then
      { player := p1
        platform := { pl1 with hasPowerUp := false }
        score := sc1
        spawned := [mkSpawn r.spawnType pl1] }
    else
      { player := p1, platform := pl1, score := sc1, spawned := [] }
  else
    { player := p, platform := pl, score := sc, spawned := [] }

/-- Moving-platform drift (part_005, lines 579-582): shift by `vx`, then
reverse the drift when the new position touches a horizontal bound. -/
def movePlat (W : ℚ) (pl : Platform) : Platform :=
  let x1 := pl.x + pl.vx
  { pl with x := x1, vx := if x1 < 0 ∨ W < x1 + pl.width then -pl.vx else pl.vx }

/-- Platform recycling (part_005, lines 665-690): teleport above the
viewport with rerolled position, type, flags, drift and width; the height
is kept.  The rerolled random values come from the oracle, with the same
dependencies as in the source (`isBreakable` only for type 4,
`isDisappearing` only for type 5, drift only for type 2). -/
def recyclePlat (r : PlatRand) (pl : Platform) : Platform :=
  { pl with
    x := r.recycleX
    y := r.recycleY
    type := r.recycleType
    isBreakable := decide (r.recycleType = 4) && r.recycleBreakable
    isDisappearing := decide (r.recycleType = 5) && r.recycleDisappearing
    disappearTimer := 0
    vx := if r.recycleType = 2 ∧ r.recycleMoving = true then
        (if r.recycleVxPos = true then 1 else -1) else 0
    width := r.recycleWidth
    hasPowerUp := r.recycleHasPowerUp }

/-- One iteration of the platform loop (part_005, lines 567-691, drawing
omitted): advance the collapse timer of a disappearing platform and drop it
past the threshold (the loop `continue`), otherwise drift, resolve the
collision, and recycle the platform once it has scrolled below the
viewport. -/
def platformStep (W H : ℚ) (r : PlatRand) (p : Player) (sc : ℚ) (pl : Platform) : HitResult :=
  let pl1 := if pl.isDisappearing = true then
      { pl with disappearTimer := pl.disappearTimer + 1/60 } else pl
  if pl1.isDisappearing = true ∧ 1 < pl1.disappearTimer then
    { player := p
      platform := { pl1 with y := -1000 }
      score := sc
      spawned := [] }
  else
    let pl2 := if pl1.vx ≠ 0 then movePlat W pl1 else pl1
    let res := platformCollision r p sc pl2
    let pl3 := if H + 40 < res.platform.y then recyclePlat r res.platform else res.platform
    { player := res.player
      platform := pl3
      score := res.score
      spawned := res.spawned }

/-- Result of folding the platform loop over the whole collection. -/
structure LoopRes where
  player : Player
  score : ℚ
  platforms : List Platform
  spawned : List PowerUp

/-- The platform loop, indexed so each platform sees its own random draws. -/
def platsLoop (W H : ℚ) (rnd : ℕ → PlatRand) (i : ℕ) (p : Player) (sc : ℚ) :
    List Platform → LoopRes
  | [] => { player := p, score := sc, platforms := [], spawned := [] }
  | pl :: rest =>
    let h := platformStep W H (rnd i) p sc pl
    let t := platsLoop W H rnd (i + 1) h.player h.score rest
    { player := t.player
      score := t.score
      platforms := h.platform :: t.platforms
      spawned := h.spawned ++ t.spawned }

/-- Player/power-up AABB overlap (part_005, lines 712-717). -/
def powerUpOverlap (p : Player) (pu : PowerUp) : Bool :=
  decide (p.x < pu.x + pu.width ∧ pu.x < p.x + p.width ∧
    p.y < pu.y + pu.height ∧ pu.y < p.y + p.height)

/-- Effect of picking up a power-up (part_005, lines 718-735). -/
def applyPowerUp (p : Player) : PowerUpType → Player
  | .jetpack => { p with hasJetpack := true, jetpackFuel := 3 }
  | .spring => { p with vy := -20 }
  | .rocket => { p with rocketBoost := 1 }
  | .shield => { p with hasShield := true, shieldTimer := 10 }

/-- Result of the power-up pickup loop. -/
structure PickRes where
  player : Player
  score : ℚ
  powerUps : List PowerUp

/-- The power-up pickup loop (part_005, lines 696-740, drawing omitted):
each overlapped power-up applies its effect, is flagged consumed
(`activeTime = -1`, removed by the decay filter of the next frame), and adds the
flat 20-point bonus. -/
def pickups (p : Player) (sc : ℚ) : List PowerUp → PickRes
  | [] => { player := p, score := sc, powerUps := [] }
  | pu :: rest =>
    if powerUpOverlap p pu = true then
      let t := pickups (applyPowerUp p pu.type) (sc + 20) rest
      { player := t.player
        score := t.score
        powerUps := { pu with activeTime := -1 } :: t.powerUps }
    else
      let t := pickups p sc rest
      { player := t.player, score := t.score, powerUps := pu :: t.powerUps }

/-- Result of the terminal check: the possibly revived player, whether
another frame is scheduled, and the emitted game-over payload. -/
structure OverRes where
  player : Player
  running : Bool
  event : Option ℤ
deriving DecidableEq

/-- The fall-out check (part_005, lines 814-855): past `H + 60`, a held
shield is consumed — reposition to `H - 100`, launch upward, grant 2s of
invincibility — and the run continues; without a shield the player dies,
`onGameOver(Math.floor(score))` fires and no further frame is scheduled. -/
def gameOverCheck (H sc : ℚ) (p : Player) : OverRes :=
  if H + 60 < p.y then
    if p.hasShield = true then
      { player := { p with
          hasShield := false
          y := H - 100
          vy := -15
          isInvincible := true
          invincibleTimer := 2 }
        running := true
        event := none }
    else
      { player := { p with isDead := true }, running := false, event := some ⌊sc⌋ }
  else
    { player := p, running := true, event := none }

/-- Whole-world state for one run (part_005, `GameState` and `resetState`). -/
structure World where
  W : ℚ
  H : ℚ
  player : Player
  platforms : List Platform
  powerUps : List PowerUp
  gravity : ℚ
  scrollThreshold : ℚ
  score : ℚ
  baseY : ℚ
  time : ℚ
  running : Bool

/-- Power-up decay filter at the top of the frame (part_005, lines 471-474). -/
def decayPowerUps (pus : List PowerUp) : List PowerUp :=
  (pus.map fun pu => { pu with activeTime := pu.activeTime - 1/60 }).filter
    fun pu => decide (0 < pu.activeTime)

/-- Shield timer decay (part_005, lines 476-482). -/
def shieldDecay (p : Player) : Player :=
  if p.hasShield = true then
    let t := p.shieldTimer - 1/60
    if t ≤ 0 then { p with shieldTimer := t, hasShield := false }
    else { p with shieldTimer := t }
  else p

/-- Invincibility timer decay (part_005, lines 484-490). -/
def invincibleDecay (p : Player) : Player :=
  if p.isInvincible = true then
    let t := p.invincibleTimer - 1/60
    if t ≤ 0 then { p with invincibleTimer := t, isInvincible := false }
    else { p with invincibleTimer := t }
  else p

/-- Jetpack thrust and fuel burn (part_005, lines 492-499). -/
def jetpackStep (p : Player) : Player :=
  if p.hasJetpack = true ∧ 0 < p.jetpackFuel then
    let vy := max (p.vy - 0.5) (-20)
    let fuel := p.jetpackFuel - 1/60
    if fuel ≤ 0 then { p with vy := vy, jetpackFuel := fuel, hasJetpack := false }
    else { p with vy := vy, jetpackFuel := fuel }
  else p

/-- Rocket boost override (part_005, lines 501-505). -/
def rocketStep (p : Player) : Player :=
  if 0 < p.rocketBoost then
    { p with vy := -18, rocketBoost := p.rocketBoost - 1/60 }
  else p

/-- Horizontal acceleration, damping, integration and toroidal wrap
(part_005, lines 507-516). -/
def horizontalStep (W : ℚ) (p : Player) : Player :=
  let vx := if p.isMovingLeft = true then max (p.vx - 0.8) (-10)
    else if p.isMovingRight = true then min (p.vx + 0.8) 10
    else p.vx * 0.85
  let x1 := p.x + vx
  let x2 := if W < x1 then -p.width else x1
  let x3 := if x2 < -p.width then W else x2
  { p with vx := vx, x := x3 }

/-- Vertical integration and gravity, reduced while the jetpack is lit
(part_005, lines 518-520). -/
def verticalStep (g : ℚ) (p : Player) : Player :=
  { p with y := p.y + p.vy, vy := p.vy + g * (if p.hasJetpack = true then 0.3 else 1) }

/-- One frame of `gameLoop` (part_005, lines 449-855, drawing, particles and
the derived discount display omitted): status decays, movement integration,
scrolling with the `scroll * 0.2` score rate, the platform loop, power-up
pickups, and the terminal check.  A stopped world is left unchanged (no
frame is scheduled after game over). -/
def gameStep (rnd : ℕ → PlatRand) (w : World) : World :=
  if w.running = false then w
  else
    let pus1 := decayPowerUps w.powerUps
    let p2 := verticalStep w.gravity (horizontalStep w.W
      (rocketStep (jetpackStep (invincibleDecay (shieldDecay w.player)))))
    let scroll := w.scrollThreshold - p2.y
    let p3 := if p2.y < w.scrollThreshold then { p2 with y := w.scrollThreshold } else p2
    let plats1 := if p2.y < w.scrollThreshold then
        w.platforms.map (fun pl => { pl with y := pl.y + scroll }) else w.platforms
    let pus2 := if p2.y < w.scrollThreshold then
        pus1.map (fun pu => { pu with y := pu.y + scroll }) else pus1
    let baseY1 := if p2.y < w.scrollThreshold then w.baseY + scroll else w.baseY
    let score1 := if p2.y < w.scrollThreshold then w.score + scroll * 0.2 else w.score
    let lr := platsLoop w.W w.H rnd 0 p3 score1 plats1
    let pr := pickups lr.player lr.score (pus2 ++ lr.spawned)
    let ov := gameOverCheck w.H pr.score pr.player
    { w with
      player := ov.player
      platforms := lr.platforms
      powerUps := pr.powerUps
      score := pr.score
      baseY := baseY1
      time := w.time + 1/60
      running := ov.running }

/-- Iterated frames, each with its own random draws. -/
def stepN (rnds : ℕ → ℕ → PlatRand) : ℕ → World → World
  | 0, w => w
  | n + 1, w => stepN rnds n (gameStep (rnds n) w)

/-- Oracle for the random draws made while creating one initial platform in
`resetState` (part_005, lines 383-407). -/
structure InitRand where
  x : ℚ
  width : ℚ
  type : ℕ
  isBreakable : Bool
  isDisappearing : Bool
  hasDrift : Bool
  driftPos : Bool
  hasPowerUp : Bool

/-- One randomized initial platform (part_005, lines 389-407): the loop
places platform `i` at `y = 30 + i * H / 14` with rerolled properties. -/
def initPlatform (H : ℚ) (r : InitRand) (i : ℕ) : Platform :=
  { x := r.x
    y := 30 + i * (H / 14)
    width := r.width
    height := 16
    vx := if r.hasDrift = true then (if r.driftPos = true then 1.5 else -1.5) else 0
    type := r.type
    isBreakable := decide (r.type = 4) && r.isBreakable
    isDisappearing := decide (r.type = 5) && r.isDisappearing
    disappearTimer := 0
    hasPowerUp := r.hasPowerUp }

/-- The guaranteed start platform beneath the player
(part_005, lines 410-421). -/
def startPlatform (W H : ℚ) : Platform :=
  { x := max 10 (W / 2 - 27 - 10)
    y := (H - 220) + 80 + 8
    width := 80
    height := 16
    vx := 0
    type := 1
    isBreakable := false
    isDisappearing := false
    disappearTimer := 0
    hasPowerUp := false }

/-- Model of `resetState` followed by `startGame` (part_005, lines 357-447 and
857-862): a fresh world with the player centered near the bottom, 15
randomized platforms plus the start platform, no power-ups, and the score
reset to 0. -/
def resetWorld (W H : ℚ) (rnd : ℕ → InitRand) : World :=
  { W := W
    H := H
    player :=
      { x := W / 2 - 27
        y := H - 220
        vx := 0
        vy := 8
        width := 80
        height := 80
        isMovingLeft := false
        isMovingRight := false
        isDead := false
        hasJetpack := false
        jetpackFuel := 0
        hasShield := false
        shieldTimer := 0
        rocketBoost := 0
        isInvincible := false
        invincibleTimer := 0 }
    platforms := ((List.range 15).map fun i => initPlatform H (rnd i) i) ++ [startPlatform W H]
    powerUps := []
    gravity := 0.25
    scrollThreshold := H * 0.36
    score := 0
    baseY := H - 6
    time := 0
    running := true }

/-! ## Concrete instances for boundary analysis of the landing contract -/

/-- A fixed oracle for concrete collision evaluations (no power-up spawn). -/
def cexRand : PlatRand :=
  { spawnPowerUp := false
    spawnType := .jetpack
    recycleX := 0
    recycleY := 0
    recycleType := 1
    recycleBreakable := false
    recycleDisappearing := false
    recycleMoving := false
    recycleVxPos := false
    recycleWidth := 50
    recycleHasPowerUp := false }

/-- A falling player whose bottom edge (`y + height = 100`) sits exactly on
the platform top of `cexPlat`. -/
def cexPlayer : Player :=
  { x := 0
    y := 90
    vx := 0
    vy := 1
    width := 40
    height := 10
    isMovingLeft := false
    isMovingRight := false
    isDead := false
    hasJetpack := false
    jetpackFuel := 0
    hasShield := false
    shieldTimer := 0
    rocketBoost := 0
    isInvincible := false
    invincibleTimer := 0 }

/-- A plain platform with top edge at `y = 100`. -/
def cexPlat : Platform :=
  { x := 0
    y := 100
    width := 80
    height := 16
    vx := 0
    type := 1
    isBreakable := false
    isDisappearing := false
    disappearTimer := 0
    hasPowerUp := false }

/-- A falling player strictly inside the vertical span of `cexPlat`
(bottom edge at 105). -/
def hitPlayer : Player :=
  { cexPlayer with y := 95 }

/-- An ascending player in the same region (`vy = -2`). -/
def ascPlayer : Player :=
  { cexPlayer with y := 95, vy := -2 }

/-- A shielded player past the fall-out margin for `H = 200`. -/
def fallShielded : Player :=
  { cexPlayer with y := 300, hasShield := true, shieldTimer := 4 }

/-- An unshielded player past the fall-out margin for `H = 200`. -/
def fallPlain : Player :=
  { cexPlayer with y := 300 }

/-! ## Floor arithmetic helpers -/

/-- Flooring a rational quotient by a positive natural denominator is integer
division of the floor. -/
theorem floor_div_natCast (a : ℚ) (n : ℕ) (hn : 0 < n) :
    ⌊a / (n : ℚ)⌋ = ⌊a⌋ / (n : ℤ) := by
  have hnQ : (0 : ℚ) < (n : ℚ) := by exact_mod_cast hn
  have hnZ : (0 : ℤ) < (n : ℤ) := by exact_mod_cast hn
  refine eq_of_forall_le_iff (fun z => ?_)
  rw [Int.le_floor, le_div_iff₀ hnQ, Int.le_ediv_iff_mul_le hnZ, Int.le_floor]
  push_cast
  exact Iff.rfl

/-- Pre-flooring the numerator does not change the floor of a quotient by a
natural denominator. -/
theorem floor_floor_div (a : ℚ) (n : ℕ) :
    ⌊((⌊a⌋ : ℚ)) / (n : ℚ)⌋ = ⌊a / (n : ℚ)⌋ := by
  rcases Nat.eq_zero_or_pos n with h | h
  · subst h
    simp
  · rw [floor_div_natCast a n h, Rat.floor_intCast_div_natCast]

/-! ## Ledger branch lemmas -/

/-- The expired branch of `updateDiscount`: start fresh from the new points. -/
theorem updateDiscount_expired {d : DiscountData} {now : ℚ} (np : ℚ) (src : Source)
    (h : d.expirationDate < now) :
    updateDiscount (.valid d) np src now =
      (calculateDiscount np DISCOUNT_CONFIG now,
       saveDiscount (calculateDiscount np DISCOUNT_CONFIG now)) := by
  simp only [updateDiscount, loadDiscount]
  rw [if_pos h]

/-- The locked branch of `updateDiscount`: at or above the cap, unexpired,
the record is returned without saving. -/
theorem updateDiscount_capped {d : DiscountData} {now : ℚ} (np : ℚ) (src : Source)
    (h1 : ¬ d.expirationDate < now) (h2 : DISCOUNT_CONFIG.maxDiscount ≤ d.totalDiscount) :
    updateDiscount (.valid d) np src now = (d, .valid d) := by
  simp only [updateDiscount, loadDiscount]
  rw [if_neg h1, if_pos h2]

/-- The merge branch of `updateDiscount` for the run-score source. -/
theorem updateDiscount_merge_jump {d : DiscountData} {now : ℚ} (np : ℚ)
    (h1 : ¬ d.expirationDate < now) (h2 : d.totalDiscount < DISCOUNT_CONFIG.maxDiscount) :
    updateDiscount (.valid d) np .jump now =
      ({ pointsEarned := d.pointsEarned + np
         discountPercent := min ⌊(d.pointsEarned + np) / DISCOUNT_CONFIG.pointsPerPercent⌋
           DISCOUNT_CONFIG.maxDiscount
         totalDiscount := min ⌊(d.pointsEarned + np) / DISCOUNT_CONFIG.pointsPerPercent⌋
           DISCOUNT_CONFIG.maxDiscount
         expirationDate := now + DISCOUNT_CONFIG.discountValidityDays },
       .valid
         { pointsEarned := d.pointsEarned + np
           discountPercent := min ⌊(d.pointsEarned + np) / DISCOUNT_CONFIG.pointsPerPercent⌋
             DISCOUNT_CONFIG.maxDiscount
           totalDiscount := min ⌊(d.pointsEarned + np) / DISCOUNT_CONFIG.pointsPerPercent⌋
             DISCOUNT_CONFIG.maxDiscount
           expirationDate := now + DISCOUNT_CONFIG.discountValidityDays }) := by
  simp only [updateDiscount, loadDiscount, saveDiscount]
  rw [if_neg h1, if_neg (not_le.mpr h2)]

/-- The fresh branch of `updateDiscount` when no record is stored. -/
theorem updateDiscount_missing (np : ℚ) (src : Source) (now : ℚ) :
    updateDiscount .missing np src now =
      (calculateDiscount np DISCOUNT_CONFIG now,
       saveDiscount (calculateDiscount np DISCOUNT_CONFIG now)) := rfl

/-! ## Claim C1 -/

/-- Claim C1, counterexample: for the config `{pointsPerPercent := 1/2,
maxDiscount := 100, validityDays := 7}` and score `3/2`, the code floors the
score before dividing, giving discount 2, while `min(floor(score /
pointsPerPercent), maxDiscount)` is 3.  The claimed identity fails for
configs whose `pointsPerPercent` is not a positive integer. -/
theorem calculateDiscount_fractional_config_cex :
    (calculateDiscount (3/2) ⟨1/2, 100, 7⟩ 0).discountPercent ≠
      min ⌊(3/2 : ℚ) / (1/2 : ℚ)⌋ 100 := by
  have h1 : ⌊(3/2 : ℚ)⌋ = 1 := by norm_num [Int.floor_eq_iff]
  have h2 : ⌊((1 : ℤ) : ℚ) / (1/2 : ℚ)⌋ = 2 := by norm_num [Int.floor_eq_iff]
  have h3 : ⌊(3/2 : ℚ) / (1/2 : ℚ)⌋ = 3 := by norm_num [Int.floor_eq_iff]
  simp only [calculateDiscount, h1, h2, h3]
  norm_num [min_def]

/-- Claim C1 (amended to configs whose `pointsPerPercent` is a positive
integer): for every score at least 0, `calculateDiscount` records
`pointsEarned = floor(score)` and `discountPercent = min(floor(score /
pointsPerPercent), maxDiscount)`, and `discountPercent` is monotonically
non-decreasing in the score. -/
theorem calculateDiscount_spec (score s2 now : ℚ) (cfg : DiscountConfig) (n : ℕ)
    (hn : 0 < n) (hppp : cfg.pointsPerPercent = (n : ℚ)) (hscore : 0 ≤ score)
    (hle : score ≤ s2) :
    (calculateDiscount score cfg now).pointsEarned = ((⌊score⌋ : ℤ) : ℚ) ∧
    (calculateDiscount score cfg now).discountPercent =
      min ⌊score / cfg.pointsPerPercent⌋ cfg.maxDiscount ∧
    (calculateDiscount score cfg now).discountPercent ≤
      (calculateDiscount s2 cfg now).discountPercent := by
  have hnQ : (0 : ℚ) < (n : ℚ) := by exact_mod_cast hn
  refine ⟨rfl, ?_, ?_⟩
  · simp only [calculateDiscount, hppp]
    rw [floor_floor_div]
  · simp only [calculateDiscount, hppp]
    refine min_le_min (Int.floor_mono ?_) le_rfl
    have hcast : ((⌊score⌋ : ℤ) : ℚ) ≤ ((⌊s2⌋ : ℤ) : ℚ) := by
      exact_mod_cast Int.floor_mono hle
    exact (div_le_div_iff_of_pos_right hnQ).mpr hcast

/-- Witness for `calculateDiscount_spec` at score 150, bound 999, and the
canonical config. -/
theorem calculateDiscount_spec_witness :
    (calculateDiscount 150 DISCOUNT_CONFIG 0).pointsEarned = ((⌊(150 : ℚ)⌋ : ℤ) : ℚ) ∧
    (calculateDiscount 150 DISCOUNT_CONFIG 0).discountPercent =
      min ⌊(150 : ℚ) / DISCOUNT_CONFIG.pointsPerPercent⌋ DISCOUNT_CONFIG.maxDiscount ∧
    (calculateDiscount 150 DISCOUNT_CONFIG 0).discountPercent ≤
      (calculateDiscount 999 DISCOUNT_CONFIG 0).discountPercent :=
  calculateDiscount_spec 150 999 0 DISCOUNT_CONFIG 100 (by norm_num)
    (by norm_num [DISCOUNT_CONFIG]) (by norm_num) (by norm_num)

/-! ## Claim C2 -/

/-- Claim C2, counterexample: a persisted record at the cap
(`{pointsEarned := 10000, totalDiscount := 100, expiresAt := 0}`) that has
expired by the time of the call (`now = 1`) is not returned unchanged:
`updateDiscount(5000, run-score)` takes the fresh path first and produces
`totalDiscount = 50`, not 100.  The cap does not lock the record across
expiry. -/
theorem updateDiscount_cap_after_expiry_cex :
    ((updateDiscount (.valid ⟨10000, 100, 100, 0⟩) 5000 .jump 1).1).totalDiscount = 50 ∧
    (50 : ℤ) ≠ (⟨10000, 100, 100, 0⟩ : DiscountData).totalDiscount := by
  have h0 : ((⟨10000, 100, 100, 0⟩ : DiscountData)).expirationDate < (1 : ℚ) := by
    norm_num
  have h1 : ⌊(5000 : ℚ)⌋ = 5000 := by norm_num [Int.floor_eq_iff]
  have h2 : ⌊((5000 : ℤ) : ℚ) / (100 : ℚ)⌋ = 50 := by norm_num [Int.floor_eq_iff]
  rw [updateDiscount_expired 5000 .jump h0]
  refine ⟨?_, by norm_num⟩
  simp only [calculateDiscount, DISCOUNT_CONFIG, h1, h2]
  norm_num [min_def]

/-- Claim C2 (amended with the condition that the record is unexpired at the
call): an unexpired record whose `totalDiscount` equals `maxDiscount` is
returned by `updateDiscount(anyPoints, run-score)` with all fields unchanged
and without rewriting storage — the cap locks the record. -/
theorem updateDiscount_cap_locked_unexpired (d : DiscountData) (np now : ℚ)
    (h1 : ¬ d.expirationDate < now) (h2 : d.totalDiscount = DISCOUNT_CONFIG.maxDiscount) :
    updateDiscount (.valid d) np .jump now = (d, .valid d) :=
  updateDiscount_capped np .jump h1 (le_of_eq h2.symm)

/-- Witness for `updateDiscount_cap_locked_unexpired`: a capped record with
expiry at time 10, updated with 5000 points at time 3, is unchanged. -/
theorem updateDiscount_cap_locked_unexpired_witness :
    updateDiscount (.valid ⟨10000, 100, 100, 10⟩) 5000 .jump 3 =
      (⟨10000, 100, 100, 10⟩, .valid ⟨10000, 100, 100, 10⟩) :=
  updateDiscount_cap_locked_unexpired ⟨10000, 100, 100, 10⟩ 5000 3
    (by norm_num) (by norm_num [DISCOUNT_CONFIG])

/-! ## Claim C3 -/

/-- Claim C3, counterexample: a negative score is floored but not clamped.
`calculateDiscount(-100)` yields `pointsEarned = -100` and `discountPercent
= -1`, both negative, contradicting the claimed clamp to a non-negative
integer. -/
theorem calculateDiscount_negative_passthrough_cex :
    (calculateDiscount (-100) DISCOUNT_CONFIG 0).pointsEarned = -100 ∧
    (calculateDiscount (-100) DISCOUNT_CONFIG 0).discountPercent = -1 := by
  have h1 : ⌊(-100 : ℚ)⌋ = -100 := by norm_num [Int.floor_eq_iff]
  have h2 : ⌊((-100 : ℤ) : ℚ) / (100 : ℚ)⌋ = -1 := by norm_num [Int.floor_eq_iff]
  simp only [calculateDiscount, DISCOUNT_CONFIG, h1, h2]
  norm_num [min_def]

/-- Claim C3 (amended): the ledger never throws (all its functions are
total), and for non-negative scores the produced `pointsEarned`,
`discountPercent` and `totalDiscount` are non-negative; a negative score,
however, is only floored, not clamped, and propagates into negative fields
(see the counterexample). -/
theorem calculateDiscount_nonneg_on_nonneg (score now : ℚ) (h : 0 ≤ score) :
    0 ≤ (calculateDiscount score DISCOUNT_CONFIG now).pointsEarned ∧
    0 ≤ (calculateDiscount score DISCOUNT_CONFIG now).discountPercent ∧
    0 ≤ (calculateDiscount score DISCOUNT_CONFIG now).totalDiscount := by
  have hf : (0 : ℤ) ≤ ⌊score⌋ := Int.floor_nonneg.mpr h
  have hdp : (0 : ℤ) ≤ min ⌊((⌊score⌋ : ℤ) : ℚ) / DISCOUNT_CONFIG.pointsPerPercent⌋
      DISCOUNT_CONFIG.maxDiscount := by
    refine le_min (Int.floor_nonneg.mpr (div_nonneg ?_ ?_)) ?_
    · exact_mod_cast hf
    · norm_num [DISCOUNT_CONFIG]
    · norm_num [DISCOUNT_CONFIG]
  refine ⟨?_, hdp, hdp⟩
  simp only [calculateDiscount]
  exact_mod_cast hf

/-- Witness for `calculateDiscount_nonneg_on_nonneg` at score `7/2`. -/
theorem calculateDiscount_nonneg_on_nonneg_witness :
    0 ≤ (calculateDiscount (7/2) DISCOUNT_CONFIG 0).pointsEarned ∧
    0 ≤ (calculateDiscount (7/2) DISCOUNT_CONFIG 0).discountPercent ∧
    0 ≤ (calculateDiscount (7/2) DISCOUNT_CONFIG 0).totalDiscount :=
  calculateDiscount_nonneg_on_nonneg (7/2) 0 (by norm_num)

/-! ## Claim C4 -/

/-- Claim C4: when the stored record is expired, `updateDiscount(newPoints,
run-score)` is computed from the new points alone via `calculateDiscount`,
discarding the old accumulation; in particular 300 new points give
`pointsEarned = 300` and `totalDiscount = 3` under the canonical config. -/
theorem updateDiscount_fresh_after_expiry (d : DiscountData) (now np : ℚ)
    (h : d.expirationDate < now) :
    (updateDiscount (.valid d) np .jump now).1 = calculateDiscount np DISCOUNT_CONFIG now ∧
    (updateDiscount (.valid d) 300 .jump now).1.pointsEarned = 300 ∧
    (updateDiscount (.valid d) 300 .jump now).1.totalDiscount = 3 := by
  have h1 : ⌊(300 : ℚ)⌋ = 300 := by norm_num [Int.floor_eq_iff]
  have h2 : ⌊((300 : ℤ) : ℚ) / (100 : ℚ)⌋ = 3 := by norm_num [Int.floor_eq_iff]
  refine ⟨by rw [updateDiscount_expired np .jump h], ?_, ?_⟩ <;>
    rw [updateDiscount_expired 300 .jump h] <;>
    simp only [calculateDiscount, DISCOUNT_CONFIG, h1, h2] <;>
    norm_num [min_def]

/-- Witness for `updateDiscount_fresh_after_expiry`: record expired at time
0, call at time 1. -/
theorem updateDiscount_fresh_after_expiry_witness :
    (updateDiscount (.valid ⟨500, 5, 5, 0⟩) 42 .jump 1).1 =
      calculateDiscount 42 DISCOUNT_CONFIG 1 ∧
    (updateDiscount (.valid ⟨500, 5, 5, 0⟩) 300 .jump 1).1.pointsEarned = 300 ∧
    (updateDiscount (.valid ⟨500, 5, 5, 0⟩) 300 .jump 1).1.totalDiscount = 3 :=
  updateDiscount_fresh_after_expiry ⟨500, 5, 5, 0⟩ 1 42 (by norm_num)

/-! ## Claim C5 -/

/-- Claim C5: a below-cap, unexpired run-score merge adds the new points to
the cumulative `pointsEarned`, recomputes `totalDiscount = min(floor(points
/ pointsPerPercent), maxDiscount)` and refreshes the expiry to `now +
validityDays`; and starting from the empty store, `updateDiscount(150,
run-score)` followed by `updateDiscount(250, run-score)` with no expiry in
between ends with `pointsEarned = 400` and `totalDiscount = 4`. -/
theorem updateDiscount_merge_accumulation (d : DiscountData) (now np t0 t1 : ℚ)
    (h1 : ¬ d.expirationDate < now) (h2 : d.totalDiscount < DISCOUNT_CONFIG.maxDiscount)
    (h3 : t1 ≤ t0 + 7) :
    (updateDiscount (.valid d) np .jump now).1.pointsEarned = d.pointsEarned + np ∧
    (updateDiscount (.valid d) np .jump now).1.totalDiscount =
      min ⌊(d.pointsEarned + np) / DISCOUNT_CONFIG.pointsPerPercent⌋
        DISCOUNT_CONFIG.maxDiscount ∧
    (updateDiscount (.valid d) np .jump now).1.expirationDate =
      now + DISCOUNT_CONFIG.discountValidityDays ∧
    (updateDiscount (updateDiscount .missing 150 .jump t0).2 250 .jump t1).1.pointsEarned
      = 400 ∧
    (updateDiscount (updateDiscount .missing 150 .jump t0).2 250 .jump t1).1.totalDiscount
      = 4 := by
  have hm := updateDiscount_merge_jump np h1 h2
  have hf1 : ⌊(150 : ℚ)⌋ = 150 := by norm_num [Int.floor_eq_iff]
  have hf2 : ⌊((150 : ℤ) : ℚ) / (100 : ℚ)⌋ = 1 := by norm_num [Int.floor_eq_iff]
  have e1 : calculateDiscount 150 DISCOUNT_CONFIG t0 =
      ⟨150, 1, 1, t0 + 7⟩ := by
    simp only [calculateDiscount, DISCOUNT_CONFIG, hf1, hf2]
    norm_num [min_def]
  have e2 : (updateDiscount .missing 150 .jump t0).2 = .valid ⟨150, 1, 1, t0 + 7⟩ := by
    rw [updateDiscount_missing, e1]
    rfl
  have hr1 : ¬ ((⟨150, 1, 1, t0 + 7⟩ : DiscountData)).expirationDate < t1 :=
    not_lt.mpr h3
  have hr2 : ((⟨150, 1, 1, t0 + 7⟩ : DiscountData)).totalDiscount <
      DISCOUNT_CONFIG.maxDiscount := by norm_num [DISCOUNT_CONFIG]
  have hm2 := @updateDiscount_merge_jump ⟨150, 1, 1, t0 + 7⟩ t1 250 hr1 hr2
  have hf3 : ⌊(150 + 250 : ℚ) / (100 : ℚ)⌋ = 4 := by norm_num [Int.floor_eq_iff]
  refine ⟨by rw [hm], by rw [hm], by rw [hm], ?_, ?_⟩ <;> rw [e2, hm2]
  · norm_num
  · simp only [DISCOUNT_CONFIG, hf3]
    norm_num [min_def]

/-- Witness for `updateDiscount_merge_accumulation` with the trivial record
and `t0 = t1 = 0`. -/
theorem updateDiscount_merge_accumulation_witness :
    (updateDiscount (.valid ⟨0, 0, 0, 0⟩) 0 .jump 0).1.pointsEarned = (0 : ℚ) + 0 ∧
    (updateDiscount (.valid ⟨0, 0, 0, 0⟩) 0 .jump 0).1.totalDiscount =
      min ⌊((0 : ℚ) + 0) / DISCOUNT_CONFIG.pointsPerPercent⌋ DISCOUNT_CONFIG.maxDiscount ∧
    (updateDiscount (.valid ⟨0, 0, 0, 0⟩) 0 .jump 0).1.expirationDate =
      (0 : ℚ) + DISCOUNT_CONFIG.discountValidityDays ∧
    (updateDiscount (updateDiscount .missing 150 .jump 0).2 250 .jump 0).1.pointsEarned
      = 400 ∧
    (updateDiscount (updateDiscount .missing 150 .jump 0).2 250 .jump 0).1.totalDiscount
      = 4 :=
  updateDiscount_merge_accumulation ⟨0, 0, 0, 0⟩ 0 0 0 0 (by norm_num)
    (by norm_num [DISCOUNT_CONFIG]) (by norm_num)

/-! ## Claim C6 -/

/-- Claim C6, counterexample: not every read of an expired record presents
it as no discount.  The stored record `{pointsEarned := 500, totalDiscount
:= 5, expiresAt := 0}` is expired at time 10, yet the non-first word-win
read path (`calculateGuessDiscount` with `isFirst = false`, which returns
`loadDiscount()` unchanged) surfaces its stale `totalDiscount = 5` to the
caller. -/
theorem guess_read_stale_record_cex :
    (⟨500, 5, 5, 0⟩ : DiscountData).expirationDate < 10 ∧
    (calculateGuessDiscount (.valid ⟨500, 5, 5, 0⟩) false 10).1.totalDiscount = 5 ∧
    (5 : ℤ) ≠ 0 := by
  refine ⟨by norm_num, rfl, by norm_num⟩

/-- Claim C6 (amended): the Cabinet view evaluates expiry at read time and
presents a record whose expiry timestamp is in the past as "No discount
available" (`discountExpired = true`, `daysLeft = 0`); `loadDiscount`
itself returns the stale persisted record unchanged, leaving the expiry
check to its consumers. -/
theorem cabinet_expired_read_no_discount (t nowMs : ℚ) (d : DiscountData)
    (h : t < nowMs) :
    cabinetDiscountExpired (some t) nowMs = true ∧
    cabinetDaysLeft (some t) nowMs = 0 ∧
    loadDiscount (.valid d) = some d := by
  have hq : (t - nowMs) / msPerDay ≤ 0 :=
    le_of_lt (div_neg_of_neg_of_pos (by linarith) (by norm_num [msPerDay]))
  have hc : ⌈(t - nowMs) / msPerDay⌉ ≤ 0 := by
    refine Int.ceil_le.mpr ?_
    push_cast
    exact hq
  have hd : cabinetDaysLeft (some t) nowMs = 0 := by
    simp only [cabinetDaysLeft]
    exact max_eq_left hc
  refine ⟨?_, hd, rfl⟩
  simp [cabinetDiscountExpired, hd]

/-- Witness for `cabinet_expired_read_no_discount`: expiry at time 0 read at
time 1. -/
theorem cabinet_expired_read_no_discount_witness :
    cabinetDiscountExpired (some 0) 1 = true ∧
    cabinetDaysLeft (some 0) 1 = 0 ∧
    loadDiscount (.valid ⟨500, 5, 5, 0⟩) = some ⟨500, 5, 5, 0⟩ :=
  cabinet_expired_read_no_discount 0 1 ⟨500, 5, 5, 0⟩ (by norm_num)

/-! ## Claim C10 -/

/-- Claim C10: with no persisted record, a first daily-word-win goes through
the fresh path of `updateDiscount(0, guess)` and returns
`calculateDiscount(0)`, so the first word win a user ever achieves grants
`totalDiscount = 0` and `pointsEarned = 0` — the flat +5 increment only
applies to the merge branch, which needs an existing unexpired below-cap
record. -/
theorem first_word_win_grants_no_discount (now : ℚ) :
    (updateDiscount .missing 0 .guess now).1 = calculateDiscount 0 DISCOUNT_CONFIG now ∧
    (updateDiscount .missing 0 .guess now).1.totalDiscount = 0 ∧
    (updateDiscount .missing 0 .guess now).1.pointsEarned = 0 := by
  refine ⟨rfl, ?_, ?_⟩ <;>
    simp [updateDiscount, loadDiscount, calculateDiscount, DISCOUNT_CONFIG, min_def]

/-! ## Terminal-check branch lemmas -/

/-- The shield-save branch of the terminal check. -/
theorem gameOverCheck_shield {p : Player} {H sc : ℚ} (hy : H + 60 < p.y)
    (hs : p.hasShield = true) :
    gameOverCheck H sc p =
      { player := { p with
          hasShield := false
          y := H - 100
          vy := -15
          isInvincible := true
          invincibleTimer := 2 }
        running := true
        event := none } := by
  simp [gameOverCheck, hy, hs]

/-- The terminating branch of the terminal check. -/
theorem gameOverCheck_dead {p : Player} {H sc : ℚ} (hy : H + 60 < p.y)
    (hs : p.hasShield = false) :
    gameOverCheck H sc p =
      { player := { p with isDead := true }, running := false, event := some ⌊sc⌋ } := by
  simp [gameOverCheck, hy, hs]

/-! ## Claim C7 -/

/-- Claim C7, counterexample: a falling player (`vy = 1 > 0`) whose bottom
edge lies exactly on the platform top — inside the claimed half-open
interval `[platform.y, platform.y + platform.height)` — and who overlaps the
platform horizontally does not bounce: the source test is strict
(`p.y + p.height > pl.y`), so the velocity stays positive and no landing
bonus is added. -/
theorem landing_boundary_cex :
    0 < cexPlayer.vy ∧
    cexPlayer.y + cexPlayer.height = cexPlat.y ∧
    cexPlayer.x < cexPlat.x + cexPlat.width ∧
    cexPlat.x < cexPlayer.x + cexPlayer.width ∧
    (platformCollision cexRand cexPlayer 0 cexPlat).player.vy = 1 ∧
    ¬ (platformCollision cexRand cexPlayer 0 cexPlat).player.vy < 0 ∧
    (platformCollision cexRand cexPlayer 0 cexPlat).score = 0 := by
  have hhit : platformHit cexPlayer cexPlat = false := by
    rw [platformHit]
    refine decide_eq_false ?_
    norm_num [cexPlayer, cexPlat]
  simp only [platformCollision, hhit]
  norm_num [cexPlayer, cexPlat]

/-- Claim C7 (amended: the bottom edge must be strictly below the platform
top, i.e. inside the open interval): one pass of the collision block bounces
a falling player whose bottom edge is strictly inside the vertical
span of the platform and who horizontally overlaps it — the vertical velocity
becomes negative and the score strictly increases — while a player with
`vy ≤ 0` passing through the same region is left completely unchanged. -/
theorem landing_bounce_contract (r : PlatRand) (p : Player) (sc : ℚ) (pl : Platform) :
    ((0 < p.vy ∧ pl.y < p.y + p.height ∧ p.y + p.height < pl.y + pl.height ∧
        p.x < pl.x + pl.width ∧ pl.x < p.x + p.width) →
      (platformCollision r p sc pl).player.vy < 0 ∧
      sc < (platformCollision r p sc pl).score) ∧
    (p.vy ≤ 0 → platformCollision r p sc pl = ⟨p, pl, sc, []⟩) := by
  constructor
  · rintro ⟨h1, h2, h3, h4, h5⟩
    have hhit : platformHit p pl = true := by
      rw [platformHit]
      exact decide_eq_true ⟨h1, h4, h5, h2, by linarith⟩
    simp only [platformCollision, hhit, if_true]
    constructor
    · split_ifs <;> norm_num
    · split_ifs <;> simp <;> linarith
  · intro hv
    have hhit : platformHit p pl = false := by
      rw [platformHit]
      refine decide_eq_false ?_
      rintro ⟨h1, -⟩
      exact absurd h1 (not_lt.mpr hv)
    simp only [platformCollision, hhit]
    norm_num

/-- Witness for `landing_bounce_contract`: a concrete bounce (bottom edge at
105, platform span (100, 116)) and a concrete ascending pass-through. -/
theorem landing_bounce_contract_witness :
    ((platformCollision cexRand hitPlayer 0 cexPlat).player.vy < 0 ∧
      (0 : ℚ) < (platformCollision cexRand hitPlayer 0 cexPlat).score) ∧
    platformCollision cexRand ascPlayer 0 cexPlat = ⟨ascPlayer, cexPlat, 0, []⟩ :=
  ⟨(landing_bounce_contract cexRand hitPlayer 0 cexPlat).1
      (by norm_num [hitPlayer, cexPlayer, cexPlat]),
   (landing_bounce_contract cexRand ascPlayer 0 cexPlat).2
      (by norm_num [ascPlayer, cexPlayer])⟩

/-! ## Claim C8 -/

/-- Claim C8: when the `y` of the player exceeds the world height by the fall-out
margin, a held shield is consumed instead of ending the run — the frame
keeps scheduling, `hasShield` flips off, invincibility turns on, the player
is repositioned to `H - 100` (inside the visible area whenever `100 ≤ H`)
with upward velocity — while without a shield the player dies, the game-over
event fires with `floor(score)` and no further frame is scheduled. -/
theorem shield_save_contract (p : Player) (H sc : ℚ) (hy : H + 60 < p.y) :
    (p.hasShield = true →
      (gameOverCheck H sc p).running = true ∧
      (gameOverCheck H sc p).player.hasShield = false ∧
      (gameOverCheck H sc p).player.isInvincible = true ∧
      (gameOverCheck H sc p).player.y = H - 100 ∧
      (gameOverCheck H sc p).player.vy = -15 ∧
      (gameOverCheck H sc p).player.isDead = p.isDead ∧
      (100 ≤ H → 0 ≤ (gameOverCheck H sc p).player.y ∧
        (gameOverCheck H sc p).player.y < H) ∧
      (gameOverCheck H sc p).event = none) ∧
    (p.hasShield = false →
      (gameOverCheck H sc p).player.isDead = true ∧
      (gameOverCheck H sc p).running = false ∧
      (gameOverCheck H sc p).event = some ⌊sc⌋) := by
  constructor
  · intro hs
    rw [gameOverCheck_shield hy hs]
    refine ⟨rfl, rfl, rfl, rfl, rfl, rfl, fun hH => ⟨?_, ?_⟩, rfl⟩
    · show (0 : ℚ) ≤ H - 100
      linarith
    · show H - 100 < H
      linarith
  · intro hs
    rw [gameOverCheck_dead hy hs]
    exact ⟨rfl, rfl, rfl⟩

/-- Witness for `shield_save_contract`: the shielded and unshielded fall at
`H = 200`, `y = 300`, score 5. -/
theorem shield_save_contract_witness :
    ((gameOverCheck 200 5 fallShielded).running = true ∧
      (gameOverCheck 200 5 fallShielded).player.hasShield = false ∧
      (gameOverCheck 200 5 fallShielded).player.isInvincible = true ∧
      (gameOverCheck 200 5 fallShielded).player.y = (200 : ℚ) - 100 ∧
      (gameOverCheck 200 5 fallShielded).player.vy = -15) ∧
    ((gameOverCheck 200 5 fallPlain).player.isDead = true ∧
      (gameOverCheck 200 5 fallPlain).running = false ∧
      (gameOverCheck 200 5 fallPlain).event = some 5) := by
  have hA := (shield_save_contract fallShielded 200 5
    (by norm_num [fallShielded, cexPlayer])).1 (by norm_num [fallShielded, cexPlayer])
  have hB := (shield_save_contract fallPlain 200 5
    (by norm_num [fallPlain, cexPlayer])).2 (by norm_num [fallPlain, cexPlayer])
  have h5 : ⌊(5 : ℚ)⌋ = 5 := by norm_num [Int.floor_eq_iff]
  exact ⟨⟨hA.1, hA.2.1, hA.2.2.1, hA.2.2.2.1, hA.2.2.2.2.1⟩,
    ⟨hB.1, hB.2.1, by rw [hB.2.2, h5]⟩⟩

/-! ## Claim C9 -/

/-- The collision block never decreases the score. -/
theorem platformCollision_score_le (r : PlatRand) (p : Player) (sc : ℚ) (pl : Platform) :
    sc ≤ (platformCollision r p sc pl).score := by
  simp only [platformCollision]
  split_ifs <;> simp <;> linarith

/-- One platform iteration never decreases the score. -/
theorem platformStep_score_le (W H : ℚ) (r : PlatRand) (p : Player) (sc : ℚ)
    (pl : Platform) :
    sc ≤ (platformStep W H r p sc pl).score := by
  simp only [platformStep]
  split_ifs <;> simp <;> exact platformCollision_score_le _ _ _ _

/-- The whole platform loop never decreases the score. -/
theorem platsLoop_score_le (W H : ℚ) (rnd : ℕ → PlatRand) :
    ∀ (l : List Platform) (i : ℕ) (p : Player) (sc : ℚ),
      sc ≤ (platsLoop W H rnd i p sc l).score := by
  intro l
  induction l with
  | nil => intro i p sc; exact le_refl _
  | cons pl rest ih =>
    intro i p sc
    exact le_trans (platformStep_score_le W H (rnd i) p sc pl) (ih _ _ _)

/-- The pickup loop never decreases the score. -/
theorem pickups_score_le :
    ∀ (l : List PowerUp) (p : Player) (sc : ℚ), sc ≤ (pickups p sc l).score := by
  intro l
  induction l with
  | nil => intro p sc; exact le_refl _
  | cons pu rest ih =>
    intro p sc
    simp only [pickups]
    split_ifs
    · exact le_trans (by linarith) (ih _ _)
    · exact ih _ _

/-- Claim C9: the run score is monotonically non-decreasing — one frame
never decreases it (the scroll bonus, landing bonus and pickup bonus are all
non-negative and the terminal check leaves the score alone), hence any
number of frames never decreases it — and a fresh run starts at score 0. -/
theorem score_monotone (rnd : ℕ → PlatRand) (rnds : ℕ → ℕ → PlatRand) (n : ℕ)
    (w : World) (Wd Ht : ℚ) (init : ℕ → InitRand) :
    w.score ≤ (gameStep rnd w).score ∧
    w.score ≤ (stepN rnds n w).score ∧
    (resetWorld Wd Ht init).score = 0 := by
  have hstep : ∀ (r : ℕ → PlatRand) (v : World), v.score ≤ (gameStep r v).score := by
    intro r v
    simp only [gameStep]
    split_ifs with hrun hscroll
    · exact le_refl _
    · refine le_trans (le_trans ?_ (platsLoop_score_le _ _ _ _ _ _ _))
        (pickups_score_le _ _ _)
      have hmul := mul_nonneg (le_of_lt (sub_pos.mpr hscroll))
        (by norm_num : (0 : ℚ) ≤ 0.2)
      linarith
    · exact le_trans (platsLoop_score_le _ _ _ _ _ _ _) (pickups_score_le _ _ _)
  refine ⟨hstep rnd w, ?_, rfl⟩
  induction n generalizing w with
  | zero => exact le_refl _
  | succ m ih => exact le_trans (hstep (rnds m) w) (ih _)

end MenuFrontend
